import Mathlib

/-!
Shallow embedding of the FraudGuard risk-scoring engine:
`services/inference-service/model_orchestration.py`,
`services/inference-service/inference_pipeline.py`,
`fraud_detection_api/app.py` (get_risk_level) and
`fraud_detection_api/app_advanced.py` (map_transaction_to_ml_format,
analyze_transaction validation).

Python floats are modelled as exact rationals; the per-model fraud
probability (a placeholder `np.random.random()` in the source) is passed
in as an oracle `probs : String → ℚ`, and Python dicts as association
lists.  A raised exception becomes an `Except` error value.
-/

namespace FraudGuard

/-- Association-list lookup, modelling a Python dict read `d[k]` / `d.get(k)`. -/
def lookup {α : Type} (k : String) : List (String × α) → Option α
  | [] => none
  | (k1, v) :: rest => if k1 = k then some v else lookup k rest

/-- Association-list write, modelling Python dict assignment `d[k] = v`:
replaces the first binding of `k` in place, otherwise appends. -/
def setKey {α : Type} (k : String) (v : α) : List (String × α) → List (String × α)
  | [] => [(k, v)]
  | (k1, v1) :: rest => if k1 = k then (k, v) :: rest else (k1, v1) :: setKey k v rest

/-- Remove the first occurrence, modelling Python `list.remove(x)` on a list
known to contain `x` (the source guards the call with a membership test). -/
def removeFirst (x : String) : List String → List String
  | [] => []
  | y :: ys => if y = x then ys else y :: removeFirst x ys

/-- `ModelMetadata` dataclass from model_orchestration.py.  The `ModelType`
enum value is kept as its string tag. -/
structure ModelMetadata where
  model_id : String
  model_type : String
  version : String
  accuracy : ℚ
  model_precision : ℚ
  recall_score : ℚ
  f1_score : ℚ
  last_trained : String
  is_active : Bool
deriving DecidableEq, Repr

/-- Mutable state of `ModelOrchestrator`: the `models` and `model_weights`
dicts and the `active_models` list. -/
structure Orchestrator where
  models : List (String × ModelMetadata)
  model_weights : List (String × ℚ)
  active_models : List String
deriving DecidableEq, Repr

/-- `ModelOrchestrator.__init__`: empty dicts, empty active list. -/
def emptyOrchestrator : Orchestrator := { models := [], model_weights := [], active_models := [] }

/-- `register_model`: stores metadata and weight under `model_id`, and appends
the id to `active_models` when the metadata is active (no deduplication). -/
def register_model (s : Orchestrator) (metadata : ModelMetadata) (weight : ℚ) : Orchestrator :=
  { models := setKey metadata.model_id metadata s.models
    model_weights := setKey metadata.model_id weight s.model_weights
    active_models :=
      if metadata.is_active then s.active_models ++ [metadata.model_id] else s.active_models }

/-- `get_model_metadata`: `self.models.get(model_id)`. -/
def get_model_metadata (s : Orchestrator) (model_id : String) : Option ModelMetadata :=
  lookup model_id s.models

/-- `list_active_models`: `[self.models[mid] for mid in self.active_models]`.
Each dict read is modelled by an `Option`-valued lookup (a missing id, which
raises `KeyError` in Python, shows up as `none`). -/
def list_active_models (s : Orchestrator) : List (Option ModelMetadata) :=
  s.active_models.map (fun mid => lookup mid s.models)

/-- Flip the `is_active` flag stored in the `models` dict,
modelling `self.models[model_id].is_active = b`. -/
def setActive (model_id : String) (b : Bool) :
    List (String × ModelMetadata) → List (String × ModelMetadata)
  | [] => []
  | (k1, m) :: rest =>
    (if k1 = model_id then (k1, { m with is_active := b }) else (k1, m)) ::
      setActive model_id b rest

/-- Errors raised by the orchestrator.  `noActiveModelsError` stands for the
`ValueError("No active models available for prediction")` raise — the spec's
`NoActiveModelsError`; `keyError` for a Python `KeyError` on a dict read. -/
inductive OrchError where
  | noActiveModelsError
  | keyError
deriving DecidableEq, Repr

/-- The loop body of `ensemble_predict` over a list of model ids: for each id
read its metadata (`_predict_with_model` does `self.models[model_id]`) and its
weight (`self.model_weights[model_id]`), and record the pair
`(fraud_probability * weight, weight)`.  The oracle `probs` supplies the
per-model fraud probability. -/
def contribs (models : List (String × ModelMetadata)) (weights : List (String × ℚ))
    (probs : String → ℚ) : List String → Option (List (ℚ × ℚ))
  | [] => some []
  | mid :: rest =>
    match lookup mid models, lookup mid weights, contribs models weights probs rest with
    | some _, some w, some cs => some ((probs mid * w, w) :: cs)
    | _, _, _ => none

/-- `ensemble_predict`: hard error when `active_models` is empty, else the
weighted sum divided by the total weight, with an explicit `0.0` fallback
when the total weight is not positive. -/
def ensemble_predict (s : Orchestrator) (probs : String → ℚ) : Except OrchError ℚ :=
  if s.active_models = [] then Except.error OrchError.noActiveModelsError
  else
    match contribs s.models s.model_weights probs s.active_models with
    | none => Except.error OrchError.keyError
    | some cs =>
      let weighted_sum := (cs.map Prod.fst).sum
      let total_weight := (cs.map Prod.snd).sum
      Except.ok (if 0 < total_weight then weighted_sum / total_weight else 0)

/-- `update_model_weights`: iterate the supplied pairs in order, setting the
weight only when the id is a registered model (unknown ids are merely
logged). -/
def update_model_weights (s : Orchestrator) : List (String × ℚ) → Orchestrator
  | [] => s
  | (mid, w) :: rest =>
    update_model_weights
      (if (lookup mid s.models).isSome then
        { s with model_weights := setKey mid w s.model_weights }
      else s)
      rest

/-- `deactivate_model`: if the id is active, remove its first occurrence from
`active_models` and clear the stored `is_active` flag; otherwise a no-op. -/
def deactivate_model (s : Orchestrator) (model_id : String) : Orchestrator :=
  if model_id ∈ s.active_models then
    { s with
      active_models := removeFirst model_id s.active_models
      models := setActive model_id false s.models }
  else s

/-- `activate_model`: if the id is registered and not already active, append
it to `active_models` and set the stored `is_active` flag; otherwise a no-op. -/
def activate_model (s : Orchestrator) (model_id : String) : Orchestrator :=
  if (lookup model_id s.models).isSome ∧ model_id ∉ s.active_models then
    { s with
      active_models := s.active_models ++ [model_id]
      models := setActive model_id true s.models }
  else s

/-- The stored blending weight of a model id (`0` when absent, which only
happens on unreachable states). -/
def weightOf (s : Orchestrator) (mid : String) : ℚ :=
  (lookup mid s.model_weights).getD 0

/-! ## inference_pipeline.py -/

/-- `TransactionFeatures` dataclass. -/
structure TransactionFeatures where
  transaction_id : String
  transaction_amount : ℚ
  merchant_id : String
  merchant_category : String
  user_id : String
  user_location : String
  transaction_time : String
  device_fingerprint : String
  ip_address : String
  card_last_four : String
deriving DecidableEq, Repr

/-- The claim-relevant fields of the `FraudDetectionResult` dataclass
(the wall-clock timing and timestamp fields are outside the embedding). -/
structure FraudDetectionResult where
  transaction_id : String
  fraud_probability : ℚ
  risk_score : ℚ
  is_flagged : Bool
  recommendation : String
deriving DecidableEq, Repr

/-- `InferencePipeline` configuration plus its orchestrator state. -/
structure InferencePipeline where
  orchestrator : Orchestrator
  fraud_threshold : ℚ
  risk_score_threshold : ℚ

/-- `_assess_amount_risk`: tiered step function of the amount. -/
def assess_amount_risk (amount : ℚ) : ℚ :=
  if amount > 10000 then 80
  else if amount > 5000 then 60
  else if amount > 1000 then 30
  else 10

/-- `_assess_location_risk`: the source is a placeholder returning `20.0`
for every location. -/
def assess_location_risk (location : String) : ℚ := 20

/-- `_assess_time_risk`: the source is a placeholder returning `15.0`
for every transaction time. -/
def assess_time_risk (transaction_time : String) : ℚ := 15

/-- `_calculate_risk_score`: weighted combination of the ensemble probability
with the three rule-based factors, clamped to [0, 100]. -/
def calculate_risk_score (fraud_probability : ℚ) (features : TransactionFeatures) : ℚ :=
  let base_score := fraud_probability * 100
  let amount_risk := assess_amount_risk features.transaction_amount
  let location_risk := assess_location_risk features.user_location
  let time_risk := assess_time_risk features.transaction_time
  let risk_score :=
    base_score * 0.5 + amount_risk * 0.2 + location_risk * 0.2 + time_risk * 0.1
  min 100 (max 0 risk_score)

/-- `_generate_recommendation`: four-way action from probability, score and
the flag computed by `process_transaction`. -/
def generate_recommendation (fraud_probability risk_score : ℚ) (is_flagged : Bool) : String :=
  if !is_flagged then "APPROVE"
  else if fraud_probability > 0.8 ∨ risk_score > 90 then "BLOCK"
  else if fraud_probability > 0.6 ∨ risk_score > 75 then "REVIEW"
  else "CHALLENGE"

/-- The flag-then-recommend computation of `process_transaction` at given
thresholds: `is_flagged = probability ≥ fraud_threshold ∨ score ≥
risk_score_threshold` fed into `_generate_recommendation`. -/
def recommendation_at (fraud_threshold risk_score_threshold fraud_probability risk_score : ℚ) :
    String :=
  generate_recommendation fraud_probability risk_score
    (decide (fraud_probability ≥ fraud_threshold ∨ risk_score ≥ risk_score_threshold))

/-- `process_transaction`: ensemble inference, risk scoring, flagging and
recommendation (feature-vector hashing, timing and the statistics counters
do not affect these outputs and are omitted). -/
def process_transaction (p : InferencePipeline) (probs : String → ℚ)
    (features : TransactionFeatures) : Except OrchError FraudDetectionResult :=
  (ensemble_predict p.orchestrator probs).map (fun fraud_probability =>
    let risk_score := calculate_risk_score fraud_probability features
    let is_flagged :=
      decide (fraud_probability ≥ p.fraud_threshold ∨ risk_score ≥ p.risk_score_threshold)
    { transaction_id := features.transaction_id
      fraud_probability := fraud_probability
      risk_score := risk_score
      is_flagged := is_flagged
      recommendation := generate_recommendation fraud_probability risk_score is_flagged })

/-! ## app.py (five-level risk tier) -/

/-- `get_risk_level` from fraud_detection_api/app.py: five-level tier
(level label, color). -/
def get_risk_level (risk_score : ℚ) : String × String :=
  if risk_score ≥ 80 then ("خطر عالي جداً", "red")
  else if risk_score ≥ 60 then ("خطر عالي", "orange")
  else if risk_score ≥ 40 then ("خطر متوسط", "yellow")
  else if risk_score ≥ 20 then ("خطر منخفض", "blue")
  else ("آمن", "green")

/-! ## app_advanced.py (request mapping and validation) -/

/-- A JSON field value: a number or a (non-numeric) string.  String-to-number
coercion (`float("12")`) is not modelled; a string fed to `float`/`int`
is treated as the raising case. -/
inductive JsonVal where
  | num (q : ℚ)
  | str (s : String)
deriving DecidableEq, Repr

/-- A request body: JSON object as an association list. -/
def TransactionData : Type := List (String × JsonVal)

/-- Python-level conversion error (`ValueError`/`TypeError` from `float`/`int`). -/
inductive PyErr where
  | valueError
deriving DecidableEq, Repr

/-- `float(v)` on a JSON value. -/
def pyFloat : JsonVal → Except PyErr ℚ
  | JsonVal.num q => Except.ok q
  | JsonVal.str _ => Except.error PyErr.valueError

/-- `int(v)` on a JSON value: truncation toward zero on numbers. -/
def pyInt : JsonVal → Except PyErr ℤ
  | JsonVal.num q => Except.ok (if 0 ≤ q then ⌊q⌋ else -⌊-q⌋)
  | JsonVal.str _ => Except.error PyErr.valueError

/-- `data.get(k, default)` for a field read as a string
(a number under the key, which Python would pass through, is unreachable
for the keys this is used on in the claims and is mapped to `""`). -/
def getStr (data : TransactionData) (k : String) (dflt : String) : String :=
  match lookup k data with
  | some (JsonVal.str s) => s
  | some (JsonVal.num _) => ""
  | none => dflt

/-- `data.get(k, default)` with a numeric default. -/
def getVal (data : TransactionData) (k : String) (dflt : JsonVal) : JsonVal :=
  match lookup k data with
  | some v => v
  | none => dflt

/-- Python `s.lower()`: lowercases the ASCII letters (the letters appearing
in the suspicious-keyword comparisons are ASCII or Arabic, on which Python's
`lower` agrees with this). -/
def pyLower (s : String) : String := String.mk (s.data.map Char.toLower)

/-- Python substring test `needle in hay`. -/
def substrOf (needle hay : String) : Bool :=
  decide (needle.toList <:+: hay.toList)

/-- The dict produced by `map_transaction_to_ml_format`. -/
structure MlTransaction where
  amount : ℚ
  balance : ℚ
  age : ℤ
  transaction_type : String
  payment_method : String
  hour : ℕ
  day_of_week : ℕ
  location_risk : ℚ
  device_trust : ℚ
deriving DecidableEq, Repr

/-- `map_transaction_to_ml_format`: the two `random.uniform` draws and the
current-clock hour/weekday are passed in as parameters `u_loc u_dev now_hour
now_dow`.  Missing amount/balance default to `0`, missing age to `30`. -/
def map_transaction_to_ml_format (data : TransactionData) (u_loc u_dev : ℚ)
    (now_hour now_dow : ℕ) : Except PyErr MlTransaction :=
  let location := pyLower (getStr data "location" "")
  let location_risk :=
    if (["غير معروف", "مجهول", "unknown", "خارج"].any (fun k => substrOf k location)) then
      (0.8 : ℚ)
    else u_loc
  let device_id := getStr data "device_id" ""
  let device_trust :=
    if (["unknown", "غير", "000"].any (fun k => substrOf k (pyLower device_id))) then
      (0.2 : ℚ)
    else u_dev
  do
    let amount ← pyFloat (getVal data "amount" (JsonVal.num 0))
    let balance ← pyFloat (getVal data "balance" (JsonVal.num 0))
    let age ← pyInt (getVal data "age" (JsonVal.num 30))
    Except.ok
      { amount := amount
        balance := balance
        age := age
        transaction_type := getStr data "transaction_type" "شراء"
        payment_method := getStr data "payment_method" "بطاقة_ائتمان"
        hour := now_hour
        day_of_week := now_dow
        location_risk := location_risk
        device_trust := device_trust }

/-- The required-field check at the top of `/api/analyze`
(`analyze_transaction` in app_advanced.py): returns the first missing field
among `transaction_id`, `amount`, `balance`, if any. -/
def analyze_transaction_validate (data : TransactionData) : Option String :=
  ["transaction_id", "amount", "balance"].find? (fun f => (lookup f data).isNone)

/-! ## Admin-operation sequences (for the registry invariant) -/

/-- One administrative call on the orchestrator. -/
inductive AdminOp where
  | register (metadata : ModelMetadata) (weight : ℚ)
  | activate (model_id : String)
  | deactivate (model_id : String)
  | updateWeights (weights : List (String × ℚ))

/-- Apply one admin call. -/
def applyOp (s : Orchestrator) : AdminOp → Orchestrator
  | AdminOp.register m w => register_model s m w
  | AdminOp.activate mid => activate_model s mid
  | AdminOp.deactivate mid => deactivate_model s mid
  | AdminOp.updateWeights ws => update_model_weights s ws

/-- Run a sequence of admin calls from a starting state. -/
def runOps (s : Orchestrator) (ops : List AdminOp) : Orchestrator :=
  ops.foldl applyOp s

/-- Every active model id has a registry entry. -/
def activeRegistered (s : Orchestrator) : Prop :=
  ∀ mid ∈ s.active_models, (lookup mid s.models).isSome = true

/-- Every stored blending weight is nonnegative. -/
def weightsNonneg (s : Orchestrator) : Prop :=
  ∀ p ∈ s.model_weights, (0 : ℚ) ≤ p.2

/-- The weights supplied by one admin call are nonnegative. -/
def opWeightsOk : AdminOp → Prop
  | AdminOp.register _ w => 0 ≤ w
  | AdminOp.updateWeights ws => ∀ p ∈ ws, (0 : ℚ) ≤ p.2
  | _ => True

/-! ## Spec-side definitions and concrete fixtures -/

/-- `clamp(x, 0, 100)`. -/
def clamp0to100 (x : ℚ) : ℚ := min 100 (max 0 x)

/-- The amount tier exactly as the spec words it:
`>10,000 → 80, >5,000 → 60, >1,000 → 30, else 10`. -/
def spec_amount_risk (amount : ℚ) : ℚ :=
  if amount > 10000 then 80
  else if amount > 5000 then 60
  else if amount > 1000 then 30
  else 10

/-- The risk-score formula as claim C3 states it, with its underdetermined
parts quantified: some suspicious-keyword predicate `susp` (which, per the
spec's own examples, holds of "unknown" and not of "known-city"), some low
baseline `bl < 80` for non-suspicious locations, and some time-risk
assignment `tr` depending on the transaction-time field. -/
def c3_claimed_formula : Prop :=
  ∃ susp : String → Bool,
    susp "unknown" = true ∧ susp "known-city" = false ∧
    ∃ bl : ℚ, bl < 80 ∧
      ∃ tr : String → ℚ,
        ∀ (p : ℚ) (tx : TransactionFeatures),
          calculate_risk_score p tx =
            clamp0to100 (p * 100 * 0.5 + spec_amount_risk tx.transaction_amount * 0.2
              + (if susp tx.user_location then (80 : ℚ) else bl) * 0.2
              + tr tx.transaction_time * 0.1)

/-- A transaction differing from `tx` only in what claim C3 says should
matter: amount 500, chosen location and time. -/
def c3tx (location time : String) : TransactionFeatures :=
  { transaction_id := "t"
    transaction_amount := 500
    merchant_id := "m"
    merchant_category := "c"
    user_id := "u"
    user_location := location
    transaction_time := time
    device_fingerprint := "d"
    ip_address := "i"
    card_last_four := "0000" }

/-- A sample registered model (witness fixture). -/
def rfMeta : ModelMetadata :=
  { model_id := "m1"
    model_type := "random_forest"
    version := "1.0"
    accuracy := 1
    model_precision := 1
    recall_score := 1
    f1_score := 1
    last_trained := "2024-01-15"
    is_active := true }

/-- A second sample model (witness fixture). -/
def gbMeta : ModelMetadata := { rfMeta with model_id := "m2", model_type := "gradient_boosting" }

/-- Two active models at weight 1 each (witness fixture). -/
def orch2 : Orchestrator := register_model (register_model emptyOrchestrator rfMeta 1) gbMeta 1

/-- One active model at weight 1 (witness fixture). -/
def orch1 : Orchestrator := register_model emptyOrchestrator rfMeta 1

/-- One active model at weight 0 (witness fixture). -/
def orchZero : Orchestrator := register_model emptyOrchestrator rfMeta 0

/-- Per-model probability oracle returning 0.8 for `m1` and 0.9 otherwise
(witness fixture). -/
def probsW : String → ℚ := fun mid => if mid = "m1" then 0.8 else 0.9

/-- A sample admin-call sequence with nonnegative weights (witness fixture). -/
def demoOps : List AdminOp :=
  [AdminOp.register rfMeta 1, AdminOp.register gbMeta 1, AdminOp.deactivate "m1",
   AdminOp.activate "m1", AdminOp.updateWeights [("m1", 2), ("zz", 3)]]

/-- A request body with numeric amount and balance but no age field
(counterexample fixture). -/
def dataNoAge : TransactionData :=
  [("transaction_id", JsonVal.str "t1"), ("amount", JsonVal.num 100),
   ("balance", JsonVal.num 500)]

/-- A request body missing the amount field (witness fixture). -/
def dataNoAmount : TransactionData := [("balance", JsonVal.num 1)]

/-- The example transaction: amount 75000, location "unknown", 03:00
(the balance-5000 and age-22 attributes of the scenario do not appear in
`TransactionFeatures` and do not enter this code path). -/
def tx75000 : TransactionFeatures :=
  { transaction_id := "tx7"
    transaction_amount := 75000
    merchant_id := "mer"
    merchant_category := "international_transfer"
    user_id := "u1"
    user_location := "unknown"
    transaction_time := "03:00"
    device_fingerprint := "d"
    ip_address := "1.2.3.4"
    card_last_four := "4242" }

/-- The pipeline at its default thresholds over the two-model registry
(witness fixture). -/
def pipelineW : InferencePipeline :=
  { orchestrator := orch2
    fraud_threshold := 0.5
    risk_score_threshold := 70 }

/-! ## Decision-policy claims -/

/-- The recommendation precedence as the specification words it. -/
def spec_recommendation (p s : ℚ) : String :=
  if ¬ (p ≥ 0.5 ∨ s ≥ 70) then "APPROVE"
  else if p > 0.8 ∨ s > 90 then "BLOCK"
  else if p > 0.6 ∨ s > 75 then "REVIEW"
  else "CHALLENGE"

/-- C1: for every fraud probability `p` and risk score `s`, the pipeline's
flag-then-recommend computation at its default thresholds (0.5, 70) follows
the spec's exact precedence: `is_flagged = (p ≥ 0.5 ∨ s ≥ 70)`; not flagged →
APPROVE; else `p > 0.8 ∨ s > 90` → BLOCK; else `p > 0.6 ∨ s > 75` → REVIEW;
else CHALLENGE. -/
theorem recommendation_matches_spec_precedence (p s : ℚ) :
    recommendation_at 0.5 70 p s = spec_recommendation p s := by
  unfold recommendation_at generate_recommendation spec_recommendation
  by_cases h : (p ≥ (0.5 : ℚ) ∨ s ≥ 70) <;> simp [h]

/-- C8: the decision policy is monotonic in the risk score: at any thresholds,
raising the risk score while holding the probability fixed preserves a BLOCK
recommendation. -/
theorem block_monotone_in_risk_score (ft rt p s1 s2 : ℚ) (hle : s1 ≤ s2)
    (hb : recommendation_at ft rt p s1 = "BLOCK") :
    recommendation_at ft rt p s2 = "BLOCK" := by
  unfold recommendation_at generate_recommendation at hb ⊢
  by_cases hf1 : (p ≥ ft ∨ s1 ≥ rt)
  · have hf2 : (p ≥ ft ∨ s2 ≥ rt) := hf1.imp id (fun h => le_trans h hle)
    simp only [hf1, hf2, decide_eq_true_eq, decide_eq_false_iff_not, not_true, not_false_iff,
      Bool.not_eq_true, if_true, if_false, Bool.not_true, Bool.false_eq_true] at hb ⊢
    rw [if_neg (by simp [hf1])] at hb
    rw [if_neg (by simp [hf2])]
    by_cases hc1 : (p > (0.8 : ℚ) ∨ s1 > 90)
    · have hc2 : (p > (0.8 : ℚ) ∨ s2 > 90) := hc1.imp id (fun h => lt_of_lt_of_le h hle)
      simp [hc2]
    · rw [if_neg hc1] at hb
      by_cases hd1 : (p > (0.6 : ℚ) ∨ s1 > 75) <;> simp [hd1] at hb
  · simp [hf1] at hb

/-- C8 witness: a concrete instance, probability 0.9, scores 10 ≤ 20. -/
theorem block_monotone_in_risk_score_witness :
    (10 : ℚ) ≤ 20 ∧ recommendation_at 0.5 70 0.9 20 = "BLOCK" :=
  ⟨by norm_num,
   block_monotone_in_risk_score 0.5 70 0.9 10 20 (by norm_num)
     (by norm_num [recommendation_at, generate_recommendation])⟩

/-! ## Risk-score formula (claim C3) -/

/-- A clamp that lands strictly inside (0, 100) is the identity. -/
theorem clamp0to100_eq {x y : ℚ} (h0 : 0 < y) (h100 : y < 100)
    (h : clamp0to100 x = y) : x = y := by
  unfold clamp0to100 at h
  rcases le_or_lt x 0 with hx | hx
  · rw [max_eq_left hx] at h
    rw [min_eq_right (by norm_num)] at h
    exact absurd h.symm (ne_of_gt h0)
  · rw [max_eq_right hx.le] at h
    rcases le_or_lt (100 : ℚ) x with hx2 | hx2
    · rw [min_eq_left hx2] at h
      exact absurd h (by intro hc; rw [hc] at h100; exact lt_irrefl _ h100)
    · rw [min_eq_right hx2.le] at h
      exact h

/-- C3 counterexample: the claimed formula is false of the code.
`_assess_location_risk` returns 20 for every location, so the transactions
`c3tx "unknown" "T"` and `c3tx "known-city" "T"` (probability 0, amount 500)
both get risk score 7.5, while the claimed formula forces the non-suspicious
baseline to be 80, contradicting `bl < 80`. -/
theorem risk_score_formula_counterexample : ¬ c3_claimed_formula := by
  rintro ⟨susp, hsu, hsk, bl, hbl, tr, h⟩
  have h1 := h 0 (c3tx "unknown" "T")
  have h2 := h 0 (c3tx "known-city" "T")
  have e1 : calculate_risk_score 0 (c3tx "unknown" "T") = 7.5 := by
    norm_num [calculate_risk_score, assess_amount_risk, assess_location_risk,
      assess_time_risk, c3tx]
  have e2 : calculate_risk_score 0 (c3tx "known-city" "T") = 7.5 := by
    norm_num [calculate_risk_score, assess_amount_risk, assess_location_risk,
      assess_time_risk, c3tx]
  rw [e1] at h1
  rw [e2] at h2
  simp only [c3tx, spec_amount_risk, hsu, hsk] at h1 h2
  norm_num at h1 h2
  have g1 : (18 : ℚ) + tr "T" * (1 / 10) = 15 / 2 :=
    clamp0to100_eq (by norm_num) (by norm_num) h1.symm
  have g2 : (2 : ℚ) + bl * (1 / 5) + tr "T" * (1 / 10) = 15 / 2 :=
    clamp0to100_eq (by norm_num) (by norm_num) h2.symm
  have : bl = 80 := by linarith
  linarith

/-- C3 amended: in this pipeline the location and time factors are fixed
placeholder constants (20 and 15) independent of the location and the hour;
with those constants the code computes exactly
`clamp(base×0.5 + amount_risk×0.2 + 20×0.2 + 15×0.1, 0, 100)`, and the
amount tier is exactly the claimed step function. -/
theorem risk_score_formula_amended (p : ℚ) (tx : TransactionFeatures) :
    calculate_risk_score p tx =
      clamp0to100 (p * 100 * 0.5 + spec_amount_risk tx.transaction_amount * 0.2
        + 20 * 0.2 + 15 * 0.1)
    ∧ (∀ a : ℚ, assess_amount_risk a = spec_amount_risk a)
    ∧ (∀ loc : String, assess_location_risk loc = 20)
    ∧ (∀ t : String, assess_time_risk t = 15) := by
  refine ⟨?_, fun a => rfl, fun loc => rfl, fun t => rfl⟩
  unfold calculate_risk_score clamp0to100 assess_amount_risk spec_amount_risk
    assess_location_risk assess_time_risk
  norm_num

/-! ## Orchestrator lemmas -/

theorem lookup_setKey_self {α : Type} (k : String) (v : α) (l : List (String × α)) :
    lookup k (setKey k v l) = some v := by
  induction l with
  | nil => simp [setKey, lookup]
  | cons p rest ih =>
    by_cases h : p.1 = k
    · simp [setKey, lookup, h]
    · simp [setKey, lookup, h, ih]

theorem lookup_setKey_of_ne {α : Type} {q k : String} (v : α) (l : List (String × α))
    (h : q ≠ k) : lookup q (setKey k v l) = lookup q l := by
  have hkq : ¬ k = q := fun hc => h hc.symm
  induction l with
  | nil =>
    show lookup q [(k, v)] = none
    rw [lookup, if_neg hkq]
    rfl
  | cons p rest ih =>
    by_cases hp : p.1 = k
    · rw [setKey, if_pos hp]
      have hpq : ¬ p.1 = q := fun hc => h (hc ▸ hp)
      rw [lookup, if_neg hkq, lookup, if_neg hpq]
    · rw [setKey, if_neg hp]
      by_cases hq : p.1 = q
      · rw [lookup, if_pos hq, lookup, if_pos hq]
      · rw [lookup, if_neg hq, lookup, if_neg hq, ih]

theorem mem_setKey {α : Type} {p : String × α} {k : String} {v : α} {l : List (String × α)}
    (h : p ∈ setKey k v l) : p = (k, v) ∨ p ∈ l := by
  induction l with
  | nil => simpa [setKey] using h
  | cons q rest ih =>
    by_cases hq : q.1 = k
    · rw [setKey] at h
      rw [if_pos hq] at h
      rcases List.mem_cons.mp h with h1 | h1
      · exact Or.inl h1
      · exact Or.inr (List.mem_cons_of_mem q h1)
    · rw [setKey] at h
      rw [if_neg hq] at h
      rcases List.mem_cons.mp h with h1 | h1
      · exact Or.inr (h1 ▸ List.mem_cons_self q rest)
      · rcases ih h1 with h2 | h2
        · exact Or.inl h2
        · exact Or.inr (List.mem_cons_of_mem q h2)

theorem lookup_setActive_isSome (q mid : String) (b : Bool)
    (l : List (String × ModelMetadata)) :
    (lookup q (setActive mid b l)).isSome = (lookup q l).isSome := by
  induction l with
  | nil => rfl
  | cons p rest ih =>
    obtain ⟨k1, m⟩ := p
    rw [setActive]
    by_cases hm : k1 = mid
    · rw [if_pos hm, lookup, lookup]
      by_cases hq : k1 = q
      · rw [if_pos hq, if_pos hq]
        rfl
      · rw [if_neg hq, if_neg hq, ih]
    · rw [if_neg hm, lookup, lookup]
      by_cases hq : k1 = q
      · rw [if_pos hq, if_pos hq]
      · rw [if_neg hq, if_neg hq, ih]

theorem contribs_setActive (mid : String) (b : Bool)
    (models : List (String × ModelMetadata)) (weights : List (String × ℚ))
    (probs : String → ℚ) (l : List String) :
    contribs (setActive mid b models) weights probs l = contribs models weights probs l := by
  induction l with
  | nil => rfl
  | cons x xs ih =>
    have hx := lookup_setActive_isSome x mid b models
    unfold contribs
    rw [ih]
    cases h1 : lookup x (setActive mid b models) <;> cases h2 : lookup x models <;>
      rw [h1, h2] at hx <;> simp at hx <;>
      cases hw : lookup x weights <;> cases hc : contribs models weights probs xs <;> rfl

theorem contribs_eq_map (models : List (String × ModelMetadata))
    (weights : List (String × ℚ)) (probs : String → ℚ) (l : List String)
    (hpres : ∀ m ∈ l, (lookup m models).isSome = true ∧ (lookup m weights).isSome = true) :
    contribs models weights probs l =
      some (l.map (fun m =>
        (probs m * (lookup m weights).getD 0, (lookup m weights).getD 0))) := by
  induction l with
  | nil => rfl
  | cons x xs ih =>
    obtain ⟨hm, hw⟩ := hpres x (List.mem_cons_self x xs)
    obtain ⟨meta, hmeta⟩ := Option.isSome_iff_exists.mp hm
    obtain ⟨w, hww⟩ := Option.isSome_iff_exists.mp hw
    unfold contribs
    rw [ih (fun m hmem => hpres m (List.mem_cons_of_mem x hmem)), hmeta, hww]
    simp [hww]

/-- What `ensemble_predict` returns on a state whose active ids all have
registry entries and weights: the guarded weighted average. -/
theorem ensemble_predict_formula (s : Orchestrator) (probs : String → ℚ)
    (hne : s.active_models ≠ [])
    (hpres : ∀ m ∈ s.active_models,
      (lookup m s.models).isSome = true ∧ (lookup m s.model_weights).isSome = true) :
    ensemble_predict s probs =
      Except.ok
        (if 0 < (s.active_models.map (weightOf s)).sum then
          (s.active_models.map (fun m => probs m * weightOf s m)).sum
            / (s.active_models.map (weightOf s)).sum
        else 0) := by
  unfold ensemble_predict
  rw [if_neg hne, contribs_eq_map s.models s.model_weights probs s.active_models hpres]
  simp only [List.map_map]
  rfl

/-- C2: on every state with a non-empty active set whose total weight is
positive (and whose active ids are all registered with stored weights, as
every reachable state's are), `ensemble_predict` returns exactly
`Σ(weight_i × probability_i) / Σ(weight_i)` over the active models. -/
theorem ensemble_is_weighted_average (s : Orchestrator) (probs : String → ℚ)
    (hne : s.active_models ≠ [])
    (hpres : ∀ m ∈ s.active_models,
      (lookup m s.models).isSome = true ∧ (lookup m s.model_weights).isSome = true)
    (hpos : 0 < (s.active_models.map (weightOf s)).sum) :
    ensemble_predict s probs =
      Except.ok
        ((s.active_models.map (fun m => weightOf s m * probs m)).sum
          / (s.active_models.map (weightOf s)).sum) := by
  rw [ensemble_predict_formula s probs hne hpres, if_pos hpos]
  have hc : (fun m => probs m * weightOf s m) = fun m => weightOf s m * probs m :=
    funext fun m => mul_comm _ _
  rw [hc]

/-- C10: on every state with a non-empty active set whose total weight is 0
(for example after setting every weight to 0), `ensemble_predict` does not
fail and does not divide by zero: it returns exactly 0. -/
theorem zero_total_weight_yields_zero (s : Orchestrator) (probs : String → ℚ)
    (hne : s.active_models ≠ [])
    (hpres : ∀ m ∈ s.active_models,
      (lookup m s.models).isSome = true ∧ (lookup m s.model_weights).isSome = true)
    (hzero : (s.active_models.map (weightOf s)).sum = 0) :
    ensemble_predict s probs = Except.ok 0 := by
  rw [ensemble_predict_formula s probs hne hpres, if_neg]
  rw [hzero]
  exact lt_irrefl 0

/-- C2 witness: the two-model state at weights 1 and 1 with probabilities
0.8 and 0.9. -/
theorem ensemble_is_weighted_average_witness :
    0 < (orch2.active_models.map (weightOf orch2)).sum ∧
    ensemble_predict orch2 probsW =
      Except.ok
        ((orch2.active_models.map (fun m => weightOf orch2 m * probsW m)).sum
          / (orch2.active_models.map (weightOf orch2)).sum) :=
  ⟨by norm_num +decide [orch2, register_model, emptyOrchestrator, setKey, weightOf, lookup,
      rfMeta, gbMeta],
   ensemble_is_weighted_average orch2 probsW (by decide) (by decide)
     (by norm_num +decide [orch2, register_model, emptyOrchestrator, setKey, weightOf, lookup,
       rfMeta, gbMeta])⟩

/-- C10 witness: one active model whose weight is 0. -/
theorem zero_total_weight_yields_zero_witness :
    (orchZero.active_models.map (weightOf orchZero)).sum = 0 ∧
    ensemble_predict orchZero probsW = Except.ok 0 :=
  ⟨by norm_num +decide [orchZero, register_model, emptyOrchestrator, setKey, weightOf, lookup,
      rfMeta],
   zero_total_weight_yields_zero orchZero probsW (by decide) (by decide)
     (by norm_num +decide [orchZero, register_model, emptyOrchestrator, setKey, weightOf, lookup,
       rfMeta])⟩

/-- C4: with a single active model, deactivating it empties the active set and
makes the next prediction fail with the no-active-models error (a hard stop,
not a degraded result); reactivating the same id — without re-registration —
restores the active set and makes prediction behave exactly as before. -/
theorem no_active_models_hard_stop (s : Orchestrator) (mid : String) (meta : ModelMetadata)
    (probs : String → ℚ) (hact : s.active_models = [mid])
    (hm : lookup mid s.models = some meta) :
    (deactivate_model s mid).active_models = []
    ∧ ensemble_predict (deactivate_model s mid) probs =
        Except.error OrchError.noActiveModelsError
    ∧ (activate_model (deactivate_model s mid) mid).active_models = [mid]
    ∧ ensemble_predict (activate_model (deactivate_model s mid) mid) probs =
        ensemble_predict s probs := by
  have hmem : mid ∈ s.active_models := by
    rw [hact]
    exact List.mem_cons_self mid []
  have hd : deactivate_model s mid =
      { s with
        active_models := removeFirst mid s.active_models
        models := setActive mid false s.models } := by
    unfold deactivate_model
    rw [if_pos hmem]
  have hdact : (deactivate_model s mid).active_models = [] := by
    rw [hd]
    show removeFirst mid s.active_models = []
    rw [hact, removeFirst, if_pos rfl]
  have herr : ensemble_predict (deactivate_model s mid) probs =
      Except.error OrchError.noActiveModelsError := by
    unfold ensemble_predict
    rw [hdact]
    rfl
  have hdm : (lookup mid (deactivate_model s mid).models).isSome = true := by
    rw [hd]
    show (lookup mid (setActive mid false s.models)).isSome = true
    rw [lookup_setActive_isSome, hm]
    rfl
  have hnm : mid ∉ (deactivate_model s mid).active_models := by
    rw [hdact]
    exact List.not_mem_nil mid
  have ha : activate_model (deactivate_model s mid) mid =
      { deactivate_model s mid with
        active_models := (deactivate_model s mid).active_models ++ [mid]
        models := setActive mid true (deactivate_model s mid).models } := by
    unfold activate_model
    rw [if_pos ⟨hdm, hnm⟩]
  have haact : (activate_model (deactivate_model s mid) mid).active_models = [mid] := by
    rw [ha]
    show (deactivate_model s mid).active_models ++ [mid] = [mid]
    rw [hdact]
    rfl
  refine ⟨hdact, herr, haact, ?_⟩
  unfold ensemble_predict
  rw [haact, hact]
  have hwts : (activate_model (deactivate_model s mid) mid).model_weights = s.model_weights := by
    rw [ha, hd]
  have hmods : (activate_model (deactivate_model s mid) mid).models =
      setActive mid true (setActive mid false s.models) := by
    rw [ha, hd]
  rw [hwts, hmods, contribs_setActive, contribs_setActive]

/-- C4 witness: a one-model registry, deactivated then reactivated. -/
theorem no_active_models_hard_stop_witness :
    (deactivate_model orch1 "m1").active_models = []
    ∧ ensemble_predict (deactivate_model orch1 "m1") probsW =
        Except.error OrchError.noActiveModelsError
    ∧ (activate_model (deactivate_model orch1 "m1") "m1").active_models = ["m1"]
    ∧ ensemble_predict (activate_model (deactivate_model orch1 "m1") "m1") probsW =
        ensemble_predict orch1 probsW :=
  no_active_models_hard_stop orch1 "m1" rfMeta probsW rfl rfl

/-- C9: registering an id that is already registered and active (with active
metadata) appends the id to the active list again: the id now occurs at least
twice, `list_active_models` yields the (new) metadata at least twice, the
metadata and weight entries are replaced rather than duplicated, and the
ensemble's weighted sum picks up one extra `probability × weight` term on top
of the terms of the old active list (which still contains the id). -/
theorem register_duplicate_appends (s : Orchestrator) (meta : ModelMetadata) (w : ℚ)
    (probs : String → ℚ) (hact : meta.is_active = true)
    (hmem : meta.model_id ∈ s.active_models) :
    (register_model s meta w).active_models = s.active_models ++ [meta.model_id]
    ∧ 2 ≤ (register_model s meta w).active_models.count meta.model_id
    ∧ lookup meta.model_id (register_model s meta w).models = some meta
    ∧ lookup meta.model_id (register_model s meta w).model_weights = some w
    ∧ 2 ≤ (list_active_models (register_model s meta w)).count (some meta)
    ∧ ((register_model s meta w).active_models.map
          (fun m => probs m * weightOf (register_model s meta w) m)).sum
        = (s.active_models.map
            (fun m => probs m * weightOf (register_model s meta w) m)).sum
          + probs meta.model_id * w := by
  have e1 : (register_model s meta w).active_models = s.active_models ++ [meta.model_id] := by
    simp [register_model, hact]
  have e3 : lookup meta.model_id (register_model s meta w).models = some meta :=
    lookup_setKey_self meta.model_id meta s.models
  have e4 : lookup meta.model_id (register_model s meta w).model_weights = some w :=
    lookup_setKey_self meta.model_id w s.model_weights
  have e2 : 2 ≤ (register_model s meta w).active_models.count meta.model_id := by
    rw [e1, List.count_append]
    have h1 : 0 < s.active_models.count meta.model_id := List.count_pos_iff.mpr hmem
    have h2 : ([meta.model_id]).count meta.model_id = 1 := by simp
    omega
  have e5 : 2 ≤ (list_active_models (register_model s meta w)).count (some meta) := by
    unfold list_active_models
    rw [e1, List.map_append, List.count_append]
    have h1 : 0 < (s.active_models.map
        (fun mid => lookup mid (register_model s meta w).models)).count (some meta) := by
      apply List.count_pos_iff.mpr
      have h0 := List.mem_map_of_mem
        (fun mid => lookup mid (register_model s meta w).models) hmem
      simpa only [e3] using h0
    have h2 : (([meta.model_id]).map
        (fun mid => lookup mid (register_model s meta w).models)).count (some meta) = 1 := by
      simp [e3]
    omega
  refine ⟨e1, e2, e3, e4, e5, ?_⟩
  rw [e1, List.map_append, List.sum_append]
  have hw : weightOf (register_model s meta w) meta.model_id = w := by
    unfold weightOf
    rw [e4]
    rfl
  simp [hw]

/-- C9 witness: re-registering `m1` (already active in the two-model state)
at weight 2. -/
theorem register_duplicate_appends_witness :
    (register_model orch2 rfMeta 2).active_models = orch2.active_models ++ ["m1"]
    ∧ 2 ≤ (register_model orch2 rfMeta 2).active_models.count "m1"
    ∧ lookup "m1" (register_model orch2 rfMeta 2).models = some rfMeta
    ∧ lookup "m1" (register_model orch2 rfMeta 2).model_weights = some 2
    ∧ 2 ≤ (list_active_models (register_model orch2 rfMeta 2)).count (some rfMeta)
    ∧ ((register_model orch2 rfMeta 2).active_models.map
          (fun m => probsW m * weightOf (register_model orch2 rfMeta 2) m)).sum
        = (orch2.active_models.map
            (fun m => probsW m * weightOf (register_model orch2 rfMeta 2) m)).sum
          + probsW "m1" * 2 :=
  register_duplicate_appends orch2 rfMeta 2 probsW rfl (by decide)

/-! ## Registry invariant (claim C6) -/

theorem lookup_setKey_isSome_of {α : Type} {q k : String} {v : α} {l : List (String × α)}
    (hs : (lookup q l).isSome = true) : (lookup q (setKey k v l)).isSome = true := by
  by_cases h : q = k
  · subst h
    rw [lookup_setKey_self]
    rfl
  · rw [lookup_setKey_of_ne v l h]
    exact hs

theorem mem_removeFirst {a x : String} {l : List String} (h : a ∈ removeFirst x l) :
    a ∈ l := by
  induction l with
  | nil => simpa [removeFirst] using h
  | cons y ys ih =>
    rw [removeFirst] at h
    by_cases hy : y = x
    · rw [if_pos hy] at h
      exact List.mem_cons_of_mem y h
    · rw [if_neg hy] at h
      rcases List.mem_cons.mp h with h1 | h1
      · exact h1 ▸ List.mem_cons_self y ys
      · exact List.mem_cons_of_mem y (ih h1)

theorem update_model_weights_models (s : Orchestrator) (ws : List (String × ℚ)) :
    (update_model_weights s ws).models = s.models
    ∧ (update_model_weights s ws).active_models = s.active_models := by
  induction ws generalizing s with
  | nil => exact ⟨rfl, rfl⟩
  | cons p rest ih =>
    obtain ⟨mid, w⟩ := p
    rw [update_model_weights]
    constructor
    · rw [(ih _).1]
      by_cases hc : (lookup mid s.models).isSome = true
      · rw [if_pos hc]
      · rw [if_neg hc]
    · rw [(ih _).2]
      by_cases hc : (lookup mid s.models).isSome = true
      · rw [if_pos hc]
      · rw [if_neg hc]

theorem update_model_weights_nonneg (s : Orchestrator) (ws : List (String × ℚ))
    (h : weightsNonneg s) (hws : ∀ p ∈ ws, (0 : ℚ) ≤ p.2) :
    weightsNonneg (update_model_weights s ws) := by
  induction ws generalizing s with
  | nil => exact h
  | cons p rest ih =>
    obtain ⟨mid, w⟩ := p
    rw [update_model_weights]
    refine ih _ ?_ (fun q hq => hws q (List.mem_cons_of_mem _ hq))
    by_cases hc : (lookup mid s.models).isSome = true
    · rw [if_pos hc]
      intro q hq
      rcases mem_setKey hq with h1 | h1
      · rw [h1]
        exact hws (mid, w) (List.mem_cons_self _ rest)
      · exact h q h1
    · rw [if_neg hc]
      exact h

theorem applyOp_preserves_active (s : Orchestrator) (op : AdminOp)
    (hA : activeRegistered s) : activeRegistered (applyOp s op) := by
  cases op with
  | register meta w =>
    intro m hm
    have hm2 : m ∈ s.active_models ∨ m = meta.model_id := by
      cases hia : meta.is_active with
      | false =>
        rw [applyOp, register_model] at hm
        simp only [hia] at hm
        exact Or.inl (by simpa using hm)
      | true =>
        rw [applyOp, register_model] at hm
        simp only [hia] at hm
        simpa using hm
    show (lookup m (setKey meta.model_id meta s.models)).isSome = true
    rcases hm2 with h1 | h1
    · exact lookup_setKey_isSome_of (hA m h1)
    · subst h1
      rw [lookup_setKey_self]
      rfl
  | activate mid =>
    rw [applyOp, activate_model]
    by_cases hc : ((lookup mid s.models).isSome = true ∧ mid ∉ s.active_models)
    · rw [if_pos hc]
      intro m hm
      show (lookup m (setActive mid true s.models)).isSome = true
      rw [lookup_setActive_isSome]
      rcases List.mem_append.mp hm with h1 | h1
      · exact hA m h1
      · rw [show m = mid from by simpa using h1]
        exact hc.1
    · rw [if_neg hc]
      exact hA
  | deactivate mid =>
    rw [applyOp, deactivate_model]
    by_cases hc : mid ∈ s.active_models
    · rw [if_pos hc]
      intro m hm
      show (lookup m (setActive mid false s.models)).isSome = true
      rw [lookup_setActive_isSome]
      exact hA m (mem_removeFirst hm)
    · rw [if_neg hc]
      exact hA
  | updateWeights ws =>
    intro m hm
    rw [applyOp] at hm ⊢
    rw [(update_model_weights_models s ws).2] at hm
    rw [(update_model_weights_models s ws).1]
    exact hA m hm

theorem applyOp_preserves_weights (s : Orchestrator) (op : AdminOp)
    (hW : weightsNonneg s) (hop : opWeightsOk op) : weightsNonneg (applyOp s op) := by
  cases op with
  | register meta w =>
    intro q hq
    rcases mem_setKey hq with h1 | h1
    · rw [h1]
      exact hop
    · exact hW q h1
  | activate mid =>
    rw [applyOp, activate_model]
    by_cases hc : ((lookup mid s.models).isSome = true ∧ mid ∉ s.active_models)
    · rw [if_pos hc]
      exact hW
    · rw [if_neg hc]
      exact hW
  | deactivate mid =>
    rw [applyOp, deactivate_model]
    by_cases hc : mid ∈ s.active_models
    · rw [if_pos hc]
      exact hW
    · rw [if_neg hc]
      exact hW
  | updateWeights ws => exact update_model_weights_nonneg s ws hW hop

/-- C6 as stated is false: nothing stops a negative blending weight.
Registering a model at weight −1 stores −1. -/
theorem registry_invariant_counterexample :
    ¬ (activeRegistered (runOps emptyOrchestrator [AdminOp.register rfMeta (-1)])
        ∧ weightsNonneg (runOps emptyOrchestrator [AdminOp.register rfMeta (-1)])) := by
  rintro ⟨-, h⟩
  have hmem : ("m1", (-1 : ℚ)) ∈
      (runOps emptyOrchestrator [AdminOp.register rfMeta (-1)]).model_weights := by
    have he : (runOps emptyOrchestrator [AdminOp.register rfMeta (-1)]).model_weights
        = [("m1", (-1 : ℚ))] := rfl
    rw [he]
    exact List.mem_cons_self _ []
  have := h _ hmem
  norm_num at this

/-- C6 amended: after every sequence of register / activate / deactivate /
update-weights operations from the initial empty registry, every active model
id is a registered id — unconditionally, negative-weight sequences included;
and whenever every weight supplied to register and update-weights is ≥ 0 (the
source never checks this), every stored blending weight is ≥ 0. -/
theorem registry_invariant (ops : List AdminOp) :
    activeRegistered (runOps emptyOrchestrator ops)
    ∧ ((∀ op ∈ ops, opWeightsOk op) → weightsNonneg (runOps emptyOrchestrator ops)) := by
  have genA : ∀ (l : List AdminOp) (s : Orchestrator), activeRegistered s →
      activeRegistered (runOps s l) := by
    intro l
    induction l with
    | nil => exact fun s hA => hA
    | cons op rest ih =>
      intro s hA
      rw [runOps, List.foldl_cons]
      exact ih (applyOp s op) (applyOp_preserves_active s op hA)
  have genW : ∀ (l : List AdminOp) (s : Orchestrator), weightsNonneg s →
      (∀ op ∈ l, opWeightsOk op) → weightsNonneg (runOps s l) := by
    intro l
    induction l with
    | nil => exact fun s hW _ => hW
    | cons op rest ih =>
      intro s hW hl
      rw [runOps, List.foldl_cons]
      exact ih (applyOp s op)
        (applyOp_preserves_weights s op hW (hl op (List.mem_cons_self op rest)))
        (fun q hq => hl q (List.mem_cons_of_mem op hq))
  exact ⟨genA ops emptyOrchestrator (fun m hm => absurd hm (List.not_mem_nil m)),
    fun hops => genW ops emptyOrchestrator (fun q hq => absurd hq (List.not_mem_nil q)) hops⟩

/-- C6 witness: both halves of the invariant after the sample sequence,
the weight half with its nonnegative-inputs hypothesis discharged. -/
theorem registry_invariant_witness :
    activeRegistered (runOps emptyOrchestrator demoOps)
    ∧ weightsNonneg (runOps emptyOrchestrator demoOps) :=
  ⟨(registry_invariant demoOps).1,
   (registry_invariant demoOps).2 (by
    intro op hop
    simp only [demoOps, List.mem_cons, List.not_mem_nil, or_false] at hop
    rcases hop with rfl | rfl | rfl | rfl | rfl <;> simp [opWeightsOk] <;> norm_num)⟩

/-! ## Required-field handling (claim C5) -/

/-- C5 counterexample: a request with no age field passes the required-field
validation and is mapped with age silently defaulted to 30 — no error of any
kind is raised (no `InvalidInputError` type exists in the code). -/
theorem missing_age_counterexample :
    analyze_transaction_validate dataNoAge = none
    ∧ map_transaction_to_ml_format dataNoAge 0.2 0.9 10 2 =
        Except.ok
          { amount := 100
            balance := 500
            age := 30
            transaction_type := "شراء"
            payment_method := "بطاقة_ائتمان"
            hour := 10
            day_of_week := 2
            location_risk := 0.2
            device_trust := 0.9 } := by
  constructor
  · decide
  · norm_num +decide [map_transaction_to_ml_format, dataNoAge, getStr, getVal, lookup,
      substrOf, pyLower, pyFloat, pyInt, bind, Except.bind]

/-- C5 amended: a request body missing amount (or balance) is rejected by the
route-level required-field check before feature mapping; but a missing age is
not an error: `map_transaction_to_ml_format` silently substitutes the default
30 (and would likewise substitute 0 for a missing amount or balance). -/
theorem missing_field_behavior (data1 data2 : TransactionData) (u v : ℚ) (hn dn : ℕ)
    (h1 : lookup "amount" data1 = none)
    (h2 : lookup "age" data2 = none)
    (ha : lookup "amount" data2 = some (JsonVal.num 100))
    (hb : lookup "balance" data2 = some (JsonVal.num 500)) :
    analyze_transaction_validate data1 ≠ none
    ∧ Except.map (fun r => r.age) (map_transaction_to_ml_format data2 u v hn dn) =
        Except.ok 30 := by
  constructor
  · unfold analyze_transaction_validate
    intro hnone
    have hx : ¬ ((lookup "amount" data1).isNone = true) := by
      have hall := List.find?_eq_none.mp hnone
      simpa using hall "amount" (by simp)
    rw [h1] at hx
    exact hx rfl
  · unfold map_transaction_to_ml_format getVal
    rw [h2, ha, hb]
    norm_num [pyFloat, pyInt, bind, Except.bind, Except.map]

/-- C5 witness: the concrete bodies `dataNoAmount` and `dataNoAge`. -/
theorem missing_field_behavior_witness :
    analyze_transaction_validate dataNoAmount ≠ none
    ∧ Except.map (fun r => r.age) (map_transaction_to_ml_format dataNoAge 0.2 0.9 10 2) =
        Except.ok 30 :=
  missing_field_behavior dataNoAmount dataNoAge 0.2 0.9 10 2 rfl rfl rfl rfl

/-! ## The spec's example scenario (claim C7) -/

/-- C7 counterexample: on the example scenario (two active models at weights
1 and 1 returning 0.8 and 0.9) the code's risk score is 64 — not ≥ 80 — and
the tier at 64 is high/orange, not very-high/red. -/
theorem example_scenario_counterexample :
    process_transaction pipelineW probsW tx75000 =
      Except.ok
        { transaction_id := "tx7"
          fraud_probability := 0.85
          risk_score := 64
          is_flagged := true
          recommendation := "BLOCK" }
    ∧ (64 : ℚ) < 80
    ∧ get_risk_level 64 ≠ ("خطر عالي جداً", "red") := by
  refine ⟨?_, by norm_num, by norm_num [get_risk_level]; decide⟩
  norm_num +decide [process_transaction, ensemble_predict, pipelineW, orch2, register_model,
    emptyOrchestrator, setKey, contribs, lookup, probsW, rfMeta, gbMeta, calculate_risk_score,
    assess_amount_risk, assess_location_risk, assess_time_risk, generate_recommendation,
    tx75000, Except.map]

/-- C7 amended: the scenario yields ensemble probability 0.85 and
recommendation BLOCK as claimed, but the risk score is exactly 64 and the
five-level tier at that score is high/orange. -/
theorem example_scenario_amended :
    ensemble_predict orch2 probsW = Except.ok 0.85
    ∧ process_transaction pipelineW probsW tx75000 =
        Except.ok
          { transaction_id := "tx7"
            fraud_probability := 0.85
            risk_score := 64
            is_flagged := true
            recommendation := "BLOCK" }
    ∧ get_risk_level 64 = ("خطر عالي", "orange") := by
  refine ⟨?_, ?_, by norm_num [get_risk_level]⟩
  · norm_num +decide [ensemble_predict, orch2, register_model, emptyOrchestrator, setKey,
      contribs, lookup, probsW, rfMeta, gbMeta]
  · norm_num +decide [process_transaction, ensemble_predict, pipelineW, orch2, register_model,
      emptyOrchestrator, setKey, contribs, lookup, probsW, rfMeta, gbMeta, calculate_risk_score,
      assess_amount_risk, assess_location_risk, assess_time_risk, generate_recommendation,
      tx75000, Except.map]

end FraudGuard
